import Mathlib

/- Verification development for the voxel block storage (src/voxel_buffer.cpp)
and the asynchronous block loading task (src/streams/load_block_data_task.cpp).
Machine integers are modelled as Nat with explicit masking where the code
truncates to a byte; channel buffers are lists of bytes; voxel positions are
Int (the C++ uses int coordinates). The class header (voxel_buffer.h) is not
part of the sources, so the few pieces it defines (channel defaults, index,
validate_pos, Vector3i helpers) are modelled from the spec, and are marked so. -/

inductive Depth
  | d1
  | d8
  | d16
  | d24
  | d32
  | d64
deriving DecidableEq, Repr

/-- Embedding of g_depth_bit_counts (voxel_buffer.cpp). -/
def depth_bit_count : Depth → Nat
  | .d1 => 1
  | .d8 => 8
  | .d16 => 16
  | .d24 => 24
  | .d32 => 32
  | .d64 => 64

/-- Embedding of g_depth_max_values (voxel_buffer.cpp). -/
def depth_max_value : Depth → Nat
  | .d1 => 1
  | .d8 => 0xff
  | .d16 => 0xffff
  | .d24 => 0xffffff
  | .d32 => 0xffffffff
  | .d64 => 0xffffffffffffffff

/-- Embedding of clamp_value_for_depth: if value >= max return max else value. -/
def clamp_value_for_depth (value : Nat) (d : Depth) : Nat :=
  if depth_max_value d ≤ value then depth_max_value d else value

/-- One channel of a block. data = none is the uniform-compressed state.
Bytes are Nat values below 256. -/
structure Channel where
  data : Option (List Nat)
  size_in_bytes : Nat
  defval : Nat
  depth : Depth
deriving DecidableEq, Repr

/-- Modelled from the spec (the header with the Channel struct is not in src):
default channel state is uniform, defval 0, depth D8. -/
def Channel.default : Channel :=
  { data := none, size_in_bytes := 0, defval := 0, depth := .d8 }

structure Vec3 where
  x : Int
  y : Int
  z : Int
deriving DecidableEq, Repr

def Vec3.add (a b : Vec3) : Vec3 := ⟨a.x + b.x, a.y + b.y, a.z + b.z⟩

def Vec3.sub (a b : Vec3) : Vec3 := ⟨a.x - b.x, a.y - b.y, a.z - b.z⟩

def Vec3.one : Vec3 := ⟨1, 1, 1⟩

/-- Componentwise arithmetic shift right by one (Vector3i operator >> on int,
floor division on the target compilers). -/
def Vec3.shr1 (a : Vec3) : Vec3 := ⟨Int.fdiv a.x 2, Int.fdiv a.y 2, Int.fdiv a.z 2⟩

/-- Modelled from the spec: Vector3i::clamp_to(min, max) clamps each component
to the half-open interval [min, max); call sites pass size + 1 as max to allow
the inclusive bound size (the spec phrases this as clamping to [0, size]). -/
def clamp_comp (c lo hi : Int) : Int :=
  if c < lo then lo else if hi ≤ c then hi - 1 else c

def Vec3.clamp_to (v lo hi : Vec3) : Vec3 :=
  ⟨clamp_comp v.x lo.x hi.x, clamp_comp v.y lo.y hi.y, clamp_comp v.z lo.z hi.z⟩

/-- The voxel block: 8 channels (the channels list always has length 8) and a
3D size. -/
structure VoxelBuffer where
  channels : List Channel
  size : Vec3
deriving DecidableEq, Repr

/-- State built by the VoxelBuffer constructor: all channels default, except
CHANNEL_SDF (index 1) whose defval is set to 255. The initial size is zero
(Vector3i default), modelled from the spec. -/
def VoxelBuffer.init : VoxelBuffer :=
  { channels := (List.range 8).map (fun i =>
      if i = 1 then { Channel.default with defval := 255 } else Channel.default),
    size := ⟨0, 0, 0⟩ }

def VoxelBuffer.channel (b : VoxelBuffer) (c : Nat) : Channel :=
  b.channels.getD c Channel.default

def VoxelBuffer.setCh (b : VoxelBuffer) (c : Nat) (ch : Channel) : VoxelBuffer :=
  { b with channels := b.channels.set c ch }

/-- get_volume(): size.x * size.y * size.z (sizes are kept positive by create). -/
def VoxelBuffer.volume (b : VoxelBuffer) : Nat :=
  (b.size.x * b.size.y * b.size.z).toNat

/-- Modelled from the spec: bounds check 0 <= x < size.x and likewise for y, z. -/
def VoxelBuffer.validate_pos (b : VoxelBuffer) (x y z : Int) : Bool :=
  decide (0 ≤ x) && decide (x < b.size.x) && decide (0 ≤ y) && decide (y < b.size.y) &&
    decide (0 ≤ z) && decide (z < b.size.z)

/-- Modelled from the spec: index(x,y,z) = z*sx*sy + x*sy + y (Y-major rows).
Callers validate the position first, making the value nonnegative. -/
def VoxelBuffer.index (b : VoxelBuffer) (x y z : Int) : Nat :=
  (z * (b.size.x * b.size.y) + x * b.size.y + y).toNat

/-- Little-endian bytes of a value, least significant first. -/
def bytes_le (k v : Nat) : List Nat :=
  (List.range k).map (fun j => v / 256 ^ j % 256)

/-- Little-endian read of k bytes at byte offset off (wider-word loads in the
source, which targets little-endian). -/
def read_bytes_le (data : List Nat) (off k : Nat) : Nat :=
  (List.range k).foldl (fun acc j => acc + data.getD (off + j) 0 * 256 ^ j) 0

/-- Little-endian store of k bytes of v at byte offset off. -/
def write_bytes_le (data : List Nat) (off k v : Nat) : List Nat :=
  (List.range k).foldl (fun d j => d.set (off + j) (v / 256 ^ j % 256)) data

/-- Concatenation of n copies of a byte pattern (elementwise fill loops of the
source write the same element pattern volume times over the whole buffer). -/
def rep_concat : Nat → List Nat → List Nat
  | 0, _ => []
  | n + 1, l => l ++ rep_concat n l

/-- memcpy of n bytes from src into dst. When n exceeds the destination length
the source program overruns the heap (undefined behaviour); the model writes
only the bytes that fit. -/
def memcpy_bytes (dst src : List Nat) (n : Nat) : List Nat :=
  (List.range dst.length).map (fun i => if i < n then src.getD i 0 else dst.getD i 0)

/-- Embedding of get_size_in_bytes_for_volume: bits/8, plus one byte for D1
when the volume is not a multiple of 8. -/
def get_size_in_bytes_for_volume (size : Vec3) (d : Depth) : Nat :=
  let volume := (size.x * size.y * size.z).toNat
  let bits := volume * depth_bit_count d
  let s := bits / 8
  if d = .d1 ∧ s * 8 < volume then s + 1 else s

/-- Fill pattern of a whole channel buffer (the switch in VoxelBuffer::fill):
D1 memsets 0xff or 0 over size_in_bytes, D8 memsets the byte, wider depths
write the value elementwise over the volume, which covers the entire buffer. -/
def fill_buffer (vol sib v : Nat) : Depth → List Nat
  | .d1 => List.replicate sib (if v ≠ 0 then 0xff else 0)
  | .d8 => List.replicate sib (v % 256)
  | .d16 => rep_concat vol (bytes_le 2 v)
  | .d24 => rep_concat vol (bytes_le 3 v)
  | .d32 => rep_concat vol (bytes_le 4 v)
  | .d64 => rep_concat vol (bytes_le 8 v)

/-- The depth switch of VoxelBuffer::set_voxel writing one voxel at linear
index i. For D1 it sets or clears bit (i mod 8) of byte i/8. -/
def write_voxel_in (data : List Nat) (i v : Nat) : Depth → List Nat
  | .d1 =>
    let prev := data.getD (i / 8) 0
    let m := 1 <<< (i % 8)
    data.set (i / 8) (if v ≠ 0 then prev ||| m else prev &&& (0xff ^^^ m))
  | .d8 => data.set i v
  | .d16 => write_bytes_le data (2 * i) 2 v
  | .d24 => write_bytes_le data (3 * i) 3 v
  | .d32 => write_bytes_le data (4 * i) 4 v
  | .d64 => write_bytes_le data (8 * i) 8 v

/-- Embedding of create_channel_noinit: allocates size_in_bytes bytes from the
pool. Recycled pool memory is uninitialized; g is the byte contents the fresh
allocation happens to carry. -/
def VoxelBuffer.create_channel_noinit (b : VoxelBuffer) (c : Nat) (size : Vec3) (g : Nat) :
    VoxelBuffer :=
  let ch := b.channel c
  let sib := get_size_in_bytes_for_volume size ch.depth
  b.setCh c { ch with data := some (List.replicate sib g), size_in_bytes := sib }

/-- Embedding of VoxelBuffer::fill(defval, channel). A uniform channel only
updates defval; a materialised channel is reallocated (create_channel_noinit
with the current size) and every byte is overwritten by the fill switch. -/
def VoxelBuffer.fill (b : VoxelBuffer) (v : Nat) (c : Nat) : VoxelBuffer :=
  if 8 ≤ c then b
  else
    let ch := b.channel c
    let v := clamp_value_for_depth v ch.depth
    match ch.data with
    | none => if ch.defval = v then b else b.setCh c { ch with defval := v }
    | some _ =>
      let sib := get_size_in_bytes_for_volume b.size ch.depth
      let nd := fill_buffer b.volume sib v ch.depth
      b.setCh c { ch with data := some nd, size_in_bytes := sib }

/-- Embedding of create_channel: noinit allocation then fill; the fill
overwrites every allocated byte, so the garbage byte never escapes here. -/
def VoxelBuffer.create_channel (b : VoxelBuffer) (c : Nat) (size : Vec3) (defval : Nat) :
    VoxelBuffer :=
  (b.create_channel_noinit c size 0).fill defval c

/-- Embedding of delete_channel: recycle the buffer, zero size_in_bytes. -/
def VoxelBuffer.delete_channel (b : VoxelBuffer) (c : Nat) : VoxelBuffer :=
  let ch := b.channel c
  b.setCh c { ch with data := none, size_in_bytes := 0 }

/-- Embedding of VoxelBuffer::create(sx, sy, sz): silently ignores
non-positive sizes; on a size change, materialised channels are freed and
re-created with their defval; size is updated last. -/
def VoxelBuffer.create (b : VoxelBuffer) (sx sy sz : Int) : VoxelBuffer :=
  if sx ≤ 0 ∨ sy ≤ 0 ∨ sz ≤ 0 then b
  else
    let ns : Vec3 := ⟨sx, sy, sz⟩
    if ns = b.size then b
    else
      let b2 := (List.range 8).foldl (fun acc i =>
        let ch := acc.channel i
        if ch.data.isSome then (acc.delete_channel i).create_channel i ns ch.defval
        else acc) b
      { b2 with size := ns }

/-- Embedding of clear_channel: free data if any, then defval = clamp(value). -/
def VoxelBuffer.clear_channel (b : VoxelBuffer) (c : Nat) (v : Nat) : VoxelBuffer :=
  if 8 ≤ c then b
  else
    let b1 := if (b.channel c).data.isSome then b.delete_channel c else b
    let ch := b1.channel c
    b1.setCh c { ch with defval := clamp_value_for_depth v ch.depth }

/-- Embedding of VoxelBuffer::get_voxel. Out-of-range channel returns 0;
out-of-range position or uniform channel returns defval. Note the D1 case of
the source reads channel.data[i >> 3] >> (i & 7) with no single-bit mask. -/
def VoxelBuffer.get_voxel (b : VoxelBuffer) (x y z : Int) (c : Nat) : Nat :=
  if 8 ≤ c then 0
  else
    let ch := b.channel c
    match ch.data with
    | some data =>
      if b.validate_pos x y z then
        let i := b.index x y z
        match ch.depth with
        | .d1 => data.getD (i / 8) 0 >>> (i % 8)
        | .d8 => data.getD i 0
        | .d16 => read_bytes_le data (2 * i) 2
        | .d24 => read_bytes_le data (3 * i) 3
        | .d32 => read_bytes_le data (4 * i) 4
        | .d64 => read_bytes_le data (8 * i) 8
      else ch.defval
    | none => ch.defval

/-- Embedding of VoxelBuffer::set_voxel(value, x, y, z, channel): bounds
checked no-op when out of range; clamps the value; a uniform channel stays
uniform when the clamped value equals defval, otherwise it is materialised
primed with defval before the write. -/
def VoxelBuffer.set_voxel (b : VoxelBuffer) (value : Nat) (x y z : Int) (c : Nat) :
    VoxelBuffer :=
  if 8 ≤ c then b
  else if b.validate_pos x y z = false then b
  else
    let ch := b.channel c
    let v := clamp_value_for_depth value ch.depth
    if ch.data.isNone ∧ ch.defval = v then b
    else
      let b1 := if ch.data.isNone then b.create_channel c b.size ch.defval else b
      let ch1 := b1.channel c
      let i := b1.index x y z
      b1.setCh c { ch1 with data := some (write_voxel_in (ch1.data.getD []) i v ch1.depth) }

/-- Conversion of a C++ int to uint64_t (two-complement wrap). -/
def int_to_u64 (x : Int) : Nat := (x % (2 ^ 64 : Int)).toNat

/-- Embedding of VoxelBuffer::try_set_voxel(x, y, z, value, channel): bounds
check without logging, then the source calls set_voxel(x, y, z, value,
channel_index), so x is passed as the value and (y, z, value) as the
position. -/
def VoxelBuffer.try_set_voxel (b : VoxelBuffer) (x y z value : Int) (c : Nat) :
    VoxelBuffer :=
  if 8 ≤ c then b
  else if b.validate_pos x y z = false then b
  else b.set_voxel (int_to_u64 x) y z value c

/-- Embedding of the is_uniform<T> template: all elements equal to element 0
(an empty element list arises for D1 blocks with volume below 8 and yields
true, like the empty loop of the source). -/
def all_eq_head : List Nat → Bool
  | [] => true
  | v :: rest => rest.all (fun w => w == v)

/-- The first n k-byte little-endian elements of a buffer. -/
def elems_at (data : List Nat) (k n : Nat) : List Nat :=
  (List.range n).map (fun i => read_bytes_le data (k * i) k)

/-- Embedding of VoxelBuffer::is_uniform. Note the D1 case of the source scans
volume >> 3 whole bytes, not individual bits, and ignores any tail byte. -/
def VoxelBuffer.is_uniform (b : VoxelBuffer) (c : Nat) : Bool :=
  if 8 ≤ c then true
  else
    let ch := b.channel c
    match ch.data with
    | none => true
    | some data =>
      match ch.depth with
      | .d1 => all_eq_head (data.take (b.volume >>> 3))
      | .d8 => all_eq_head (data.take b.volume)
      | .d16 => all_eq_head (elems_at data 2 b.volume)
      | .d24 => all_eq_head (data.take (b.volume * 3))
      | .d32 => all_eq_head (elems_at data 4 b.volume)
      | .d64 => all_eq_head (elems_at data 8 b.volume)

/-- Embedding of compress_uniform_channels. Note the source passes
_channels[i].data[0], the first byte of the buffer, to clear_channel. -/
def VoxelBuffer.compress_uniform_channels (b : VoxelBuffer) : VoxelBuffer :=
  (List.range 8).foldl (fun acc i =>
    let ch := acc.channel i
    if ch.data.isSome && acc.is_uniform i then
      acc.clear_channel i ((ch.data.getD []).getD 0 0)
    else acc) b

/-- Embedding of copy_from(other, channel_index), the full per-channel copy.
Errors out (no-op) on size or depth mismatch. When the source channel is
materialised, the destination allocates uninitialized (byte g) if needed and
the source memcpys get_volume() bytes. -/
def VoxelBuffer.copy_from_channel (b other : VoxelBuffer) (c : Nat) (g : Nat) :
    VoxelBuffer :=
  if 8 ≤ c then b
  else if other.size ≠ b.size then b
  else
    let ch := b.channel c
    let och := other.channel c
    if och.depth ≠ ch.depth then b
    else
      let b2 :=
        match och.data with
        | some sdata =>
          let b1 := if ch.data.isNone then b.create_channel_noinit c b.size g else b
          let dch := b1.channel c
          b1.setCh c { dch with data := some (memcpy_bytes (dch.data.getD []) sdata b.volume) }
        | none => if ch.data.isSome then b.delete_channel c else b
      let ch2 := b2.channel c
      b2.setCh c { ch2 with defval := och.defval, depth := och.depth }

/-- Embedding of copy_from(other): copies all 8 channels. -/
def VoxelBuffer.copy_from_full (b other : VoxelBuffer) (g : Nat) : VoxelBuffer :=
  (List.range 8).foldl (fun acc i => acc.copy_from_channel other i g) b

/-- Embedding of duplicate(): a freshly constructed buffer, create to the same
size, then full copy_from. -/
def VoxelBuffer.duplicate (b : VoxelBuffer) (g : Nat) : VoxelBuffer :=
  (VoxelBuffer.init.create b.size.x b.size.y b.size.z).copy_from_full b g

/-- Embedding of VoxelBuffer::equals: sizes, per-channel storage kind, depth,
then defval (uniform) or the size_in_bytes bytes (materialised). The source
CRASHes when two materialised channels disagree on size_in_bytes; the model
returns false there. -/
def VoxelBuffer.equals (b other : VoxelBuffer) : Bool :=
  if b.size ≠ other.size then false
  else (List.range 8).all (fun i =>
    let ch := b.channel i
    let och := other.channel i
    if ch.data.isSome != och.data.isSome then false
    else if ch.depth ≠ och.depth then false
    else
      match ch.data, och.data with
      | some d, some od =>
        ch.size_in_bytes == och.size_in_bytes &&
          (List.range ch.size_in_bytes).all (fun j => d.getD j 0 == od.getD j 0)
      | _, _ => ch.defval == och.defval)

def int_range (a b : Int) : List Int :=
  (List.range (b - a).toNat).map (fun k => a + (k : Int))

/-- Embedding of downscale_to(dst, src_min, src_max, dst_min). Channels where
both sides are uniform with equal defval are skipped. Inside the loop the
source computes src_pos = src_min + ((pos - dst_min) << 1) and asserts it in
range, but when the source channel is materialised it reads get_voxel at pos,
the destination position (src_pos is only used by the assertion). -/
def VoxelBuffer.downscale_to (src dst : VoxelBuffer) (src_min0 src_max0 dst_min0 : Vec3) :
    VoxelBuffer :=
  let src_min := src_min0.clamp_to ⟨0, 0, 0⟩ src.size
  let src_max := src_max0.clamp_to ⟨0, 0, 0⟩ (src.size.add Vec3.one)
  let dst_max0 := dst_min0.add ((src_max.sub src_min).shr1)
  let dst_min := dst_min0.clamp_to ⟨0, 0, 0⟩ dst.size
  let dst_max := dst_max0.clamp_to ⟨0, 0, 0⟩ (dst.size.add Vec3.one)
  (List.range 8).foldl (fun acc c =>
    let sch := src.channel c
    let dch := acc.channel c
    if sch.data.isNone ∧ dch.data.isNone ∧ sch.defval = dch.defval then acc
    else
      (int_range dst_min.z dst_max.z).foldl (fun acc pz =>
        (int_range dst_min.x dst_max.x).foldl (fun acc px =>
          (int_range dst_min.y dst_max.y).foldl (fun acc py =>
            let v := if sch.data.isSome then src.get_voxel px py pz c else sch.defval
            acc.set_voxel v px py pz c) acc) acc) acc) dst

/-- Conversion of the exact value num/den (den positive) to uint64_t at a
return statement: truncation toward zero. A fraction at or below -1
truncates to a negative integer, which is undefined behaviour for the
unsigned conversion (none); fractions in (-1, 0) truncate to 0; a value at
or beyond 2^64 is also undefined (none). -/
def trunc_frac_to_u64 (num : Int) (den : Nat) : Option Nat :=
  if num ≤ -(den : Int) then none
  else if num < 0 then some 0
  else if (2 ^ 64 : Int) * den ≤ num then none
  else some (num.toNat / den)

/-- Embedding of raw_voxel_to_real. The source declares the function as
returning uint64_t, so the computed real value is converted back to an
integer at the return. For D8/D16/D24 the computed value is
(value - c) / c with c = 127, 32767 or 8388607; numerator and the integer
boundary points of that fraction are exact in the float type of the source,
so truncating the float agrees with truncating the exact fraction, computed
here as trunc_frac_to_u64. The D1 branch returns the int literal -1
converted to uint64_t when the value is zero. D32 and D64 go through IEEE
bitcasts and are not modelled (none). -/
def raw_voxel_to_real (v : Nat) : Depth → Option Nat
  | .d1 => some (if v ≠ 0 then 1 else 2 ^ 64 - 1)
  | .d8 => trunc_frac_to_u64 ((v : Int) - 0x7f) 0x7f
  | .d16 => trunc_frac_to_u64 ((v : Int) - 0x7fff) 0x7fff
  | .d24 => trunc_frac_to_u64 ((v : Int) - 0x7fffff) 0x7fffff
  | .d32 => none
  | .d64 => none

/-- Embedding of get_voxel_f: raw_voxel_to_real of get_voxel; the uint64
return value is then converted to real_t (exact for the small values
involved). Out-of-range channel returns 0. -/
def VoxelBuffer.get_voxel_f (b : VoxelBuffer) (x y z : Int) (c : Nat) : Option ℚ :=
  if 8 ≤ c then some 0
  else (raw_voxel_to_real (b.get_voxel x y z c) (b.channel c).depth).map (fun n => (n : ℚ))

/- Model of the load-block task (streams/load_block_data_task.cpp). The
stream, the generator and the engine are external collaborators; their
responses are inputs of the model. -/

inductive StreamResult
  | error
  | notFound
  | found
deriving DecidableEq, Repr

structure LoadTaskParams where
  position : Vec3
  lod_index : Nat
  block_size : Nat
  request_instances : Bool
  generate_cache_data : Bool
  generator_use_gpu : Bool

structure StreamEnv where
  voxel_result : StreamResult
  stream_effect : VoxelBuffer → VoxelBuffer
  generator_present : Bool
  supports_instance_blocks : Bool
  instances_result : StreamResult
  instances_data : Option Nat

structure LoadTaskState where
  voxels : Option VoxelBuffer
  instances : Option Nat
  has_run : Bool
  requested_generator_task : Bool
  max_lod_hint : Bool

structure RunEffects where
  pushed_generator_task : Bool
  instance_query_issued : Bool

inductive BlockDataOutputType
  | loaded
  | generated
deriving DecidableEq, Repr

structure BlockDataOutput where
  voxels : Option VoxelBuffer
  instances : Option Nat
  position : Vec3
  lod_index : Nat
  dropped : Bool
  max_lod_hint : Bool
  initial_load : Bool
  type : BlockDataOutputType

/-- The voxel-result dispatch of run(): on ERROR or BLOCK_FOUND the block is
kept; on BLOCK_NOT_FOUND with generate_cache_data and a valid generator a
generator task is pushed and the requested_generator_task flag set; with
generate_cache_data but no generator the source does nothing (the block is
kept); without generate_cache_data the block is reset. Returns (voxels,
requested_generator_task). -/
def runVoxelsDispatch (genCache genPresent : Bool) (r : StreamResult) (blk : VoxelBuffer) :
    Option VoxelBuffer × Bool :=
  match r with
  | .error => (some blk, false)
  | .found => (some blk, false)
  | .notFound =>
    if genCache then
      if genPresent then (some blk, true) else (some blk, false)
    else (none, false)

/-- The instance-query block of run(): issued only when request_instances and
the stream supports instance blocks. On RESULT_ERROR the payload is dropped;
otherwise the source moves the payload when voxel_query_data.result (the
VOXEL query) equals RESULT_BLOCK_FOUND. -/
def runInstancesDispatch (issued : Bool) (voxelResult instResult : StreamResult)
    (payload : Option Nat) : Option Nat :=
  if issued then
    if instResult = .error then none
    else if voxelResult = .found then payload
    else none
  else none

/-- Embedding of LoadBlockDataTask::run: allocate a fresh block of
block_size cubed, let the stream load into it, dispatch on the result, then
optionally query instances; has_run is set at the end. -/
def runTask (p : LoadTaskParams) (env : StreamEnv) : LoadTaskState × RunEffects :=
  let blk := env.stream_effect (VoxelBuffer.init.create p.block_size p.block_size p.block_size)
  let vr := runVoxelsDispatch p.generate_cache_data env.generator_present env.voxel_result blk
  let issued := p.request_instances && env.supports_instance_blocks
  let inst := runInstancesDispatch issued env.voxel_result env.instances_result env.instances_data
  ({ voxels := vr.1, instances := inst, has_run := true,
     requested_generator_task := vr.2, max_lod_hint := false },
   { pushed_generator_task := vr.2, instance_query_issued := issued })

/-- Embedding of LoadBlockDataTask::apply_result: none models no callback
invocation, some o models exactly one invocation with bundle o. The volume
registry lookup and the dependency flag are the booleans. -/
def applyResult (p : LoadTaskParams) (st : LoadTaskState) (volume_valid dep_valid : Bool) :
    Option BlockDataOutput :=
  if volume_valid then
    if dep_valid && !st.requested_generator_task then
      some { voxels := st.voxels, instances := st.instances, position := p.position,
             lod_index := p.lod_index, dropped := !st.has_run, max_lod_hint := st.max_lod_hint,
             initial_load := false, type := .loaded }
    else none
  else none

/- Concrete block states used by the claims. Blocks whose channels carry a
non-default depth are written as direct states: the data model of the spec
gives each channel an independent depth and persisted blocks carry
per-channel depths, so such blocks are ordinary inputs of the operations
under test. -/

def uniform_channel (d : Depth) (v : Nat) : Channel :=
  { data := none, size_in_bytes := 0, defval := v, depth := d }

/-- A block of the given size whose channels are all uniform with their
constructor defaults (SDF defval 255), except channel 2 which has depth d
and defval 0. -/
def block_with_ch2 (sz : Vec3) (d : Depth) : VoxelBuffer :=
  { channels := [uniform_channel .d8 0, uniform_channel .d8 255, uniform_channel d 0,
                 uniform_channel .d8 0, uniform_channel .d8 0, uniform_channel .d8 0,
                 uniform_channel .d8 0, uniform_channel .d8 0],
    size := sz }

/-- A 1x2x1 block with a uniform D1 channel 2 (defval 0), after
set_voxel(1, (0,1,0), 2): the channel materialises primed with 0 and bit 1
of byte 0 is set. -/
def c1_block : VoxelBuffer := (block_with_ch2 ⟨1, 2, 1⟩ .d1).set_voxel 1 0 1 0 2

/-- A 1x1x1 block with a D16 channel 2 materialised holding the single raw
value 0x1234. -/
def c2_block : VoxelBuffer := (block_with_ch2 ⟨1, 1, 1⟩ .d16).set_voxel 0x1234 0 0 0 2

/-- The 8x8x8 block of the spec scenario, channel 2 at D16 with
set_voxel(0x1234, (1,2,3), 2). -/
def c3_block : VoxelBuffer := (block_with_ch2 ⟨8, 8, 8⟩ .d16).set_voxel 0x1234 1 2 3 2

/-- A 4x2x2 source block with D8 channel 0 holding 7 at (1,0,0) and 5 at
(2,0,0). -/
def c4_src : VoxelBuffer :=
  ((VoxelBuffer.init.create 4 2 2).set_voxel 7 1 0 0 0).set_voxel 5 2 0 0 0

def c4_dst : VoxelBuffer := VoxelBuffer.init.create 2 1 1

/-- downscale_to of the whole 4x2x2 source into the 2x1x1 destination with
src_min = dst_min = 0: an aligned, in-bounds 2:1 downscale. -/
def c4_out : VoxelBuffer := VoxelBuffer.downscale_to c4_src c4_dst ⟨0, 0, 0⟩ ⟨4, 2, 2⟩ ⟨0, 0, 0⟩

def c8_block : VoxelBuffer := VoxelBuffer.init.create 4 4 4

/-- A 1x1x1 block whose D8 channel 0 holds the raw value 200. -/
def c9_block : VoxelBuffer := (VoxelBuffer.init.create 1 1 1).set_voxel 200 0 0 0 0

/-- The 16x16x16 block of the spec scenario: SDF channel uniform with
defval 255. -/
def c9_sdf_block : VoxelBuffer := VoxelBuffer.init.create 16 16 16

/-- A 16x1x1 block with a D1 channel 2 where every even-index voxel was set
to 1: both bytes of the buffer are 0x55 while the voxels alternate. -/
def c10_block : VoxelBuffer :=
  ([0, 2, 4, 6, 8, 10, 12, 14] : List Int).foldl
    (fun b px => b.set_voxel 1 px 0 0 2) (block_with_ch2 ⟨16, 1, 1⟩ .d1)

/- Concrete task parameters and stream environments for the load-task
claims. -/

/-- Task with generate_cache_data = true. -/
def c6_params : LoadTaskParams :=
  { position := ⟨0, 0, 0⟩, lod_index := 0, block_size := 2, request_instances := false,
    generate_cache_data := true, generator_use_gpu := false }

/-- Stream returning BLOCK_NOT_FOUND, with no generator available. -/
def c6_env : StreamEnv :=
  { voxel_result := .notFound, stream_effect := id, generator_present := false,
    supports_instance_blocks := false, instances_result := .error, instances_data := none }

/-- Task with generate_cache_data = false (for the amended-claim witness). -/
def c6w_params : LoadTaskParams :=
  { position := ⟨0, 0, 0⟩, lod_index := 0, block_size := 2, request_instances := false,
    generate_cache_data := false, generator_use_gpu := false }

/-- Task requesting instances, caching disabled. -/
def c7_params : LoadTaskParams :=
  { position := ⟨0, 0, 0⟩, lod_index := 0, block_size := 2, request_instances := true,
    generate_cache_data := false, generator_use_gpu := false }

/-- Stream supporting instance blocks whose voxel query misses but whose
instance query succeeds with payload 42. -/
def c7_env : StreamEnv :=
  { voxel_result := .notFound, stream_effect := id, generator_present := false,
    supports_instance_blocks := true, instances_result := .found, instances_data := some 42 }

/-- Claim C1: set_voxel followed by get_voxel returns clamp(v, depth), and on
a previously uniform channel every other in-range position still reads
defval. The code violates the second part on a D1 channel: after
set_voxel(1, (0,1,0)) on the 1x2x1 block, position p = (0,1,0) does read
clamp(1) = 1, but position q = (0,0,0) (same byte, lower bit) reads the
unmasked shifted byte 2 instead of the defval 0, because the D1 branch of
get_voxel returns data[i >> 3] >> (i & 7) without masking to one bit. -/
theorem c1_set_get_roundtrip_d1_failing_eval :
    c1_block.get_voxel 0 1 0 2 = 1 ∧
    c1_block.get_voxel 0 0 0 2 = 2 ∧
    (c1_block.channel 2).defval = 0 := by decide

/-- Claim C2: compress_uniform_channels on a materialised channel whose
voxels all hold r should make it uniform with defval r, preserving get_voxel.
The code passes _channels[i].data[0], the first byte of the buffer, to
clear_channel: on the 1x1x1 D16 channel holding r = 0x1234 (bytes 34 12 LE)
the channel is detected uniform and folded, but get_voxel changes from
0x1234 to 0x34. -/
theorem c2_compress_first_byte_failing_eval :
    (c2_block.channel 2).data.isSome = true ∧
    c2_block.is_uniform 2 = true ∧
    c2_block.get_voxel 0 0 0 2 = 0x1234 ∧
    c2_block.compress_uniform_channels.get_voxel 0 0 0 2 = 0x34 := by decide

/-- Claim C3: duplicate() of the 8x8x8 block with a D16 channel holding one
written voxel should satisfy equals. In the code the freshly constructed
duplicate has default D8 channels and copy_from errors out on the depth
mismatch, leaving channel 2 of the copy uniform while the source is
materialised, so equals returns false (and even with matching depths the
full copy memcpys get_volume() bytes instead of size_in_bytes). -/
theorem c3_duplicate_equals_failing_eval :
    c3_block.get_voxel 1 2 3 2 = 0x1234 ∧
    (c3_block.channel 2).data.isSome = true ∧
    ((c3_block.duplicate 0xab).channel 2).data.isSome = false ∧
    (c3_block.duplicate 0xab).equals c3_block = false := by decide

/-- Claim C4: after downscale_to, every written destination position p should
read src.get_voxel(src_min + 2*(p - dst_min)). On the in-bounds aligned
instance c4_out, destination position (1,0,0) should read the source voxel
at (2,0,0), which is 5, but the code samples get_voxel at the destination
position itself (src_pos is computed and asserted but never read), yielding
the source voxel at (1,0,0), which is 7. -/
theorem c4_downscale_samples_dst_pos_eval :
    c4_src.get_voxel 2 0 0 0 = 5 ∧
    c4_out.get_voxel 1 0 0 0 = 7 ∧
    c4_out.get_voxel 1 0 0 0 ≠ c4_src.get_voxel 2 0 0 0 := by decide

/-- Claim C5: apply_result invokes the data output callback exactly once if
and only if the volume is registered, the dependency is valid and the task
did not delegate to a generator task, and the emitted bundle carries the
task voxels, instances, position and lod with dropped = !has_run,
initial_load = false and type LOADED; in every other case no callback runs. -/
theorem c5_apply_result_callback_iff (p : LoadTaskParams) (st : LoadTaskState)
    (volume_valid dep_valid : Bool) :
    applyResult p st volume_valid dep_valid =
      (if volume_valid && dep_valid && !st.requested_generator_task then
        some { voxels := st.voxels, instances := st.instances, position := p.position,
               lod_index := p.lod_index, dropped := !st.has_run,
               max_lod_hint := st.max_lod_hint, initial_load := false, type := .loaded }
      else none) := by
  cases volume_valid <;> rfl

/-- Claim C6, counterexample: with BLOCK_NOT_FOUND, generate_cache_data true
and no generator, the claim says the freshly allocated block is dropped
(voxels becomes null), but the code keeps it. -/
theorem c6_block_kept_when_no_generator_counterexample :
    ((runTask c6_params c6_env).1.voxels).isSome = true := by rfl

/-- Claim C6 as amended: on BLOCK_NOT_FOUND the freshly allocated block is
dropped exactly when generate_cache_data is false; when generate_cache_data
is true but no generator exists the block is kept. -/
theorem c6_drop_on_miss_amended (p : LoadTaskParams) (env : StreamEnv)
    (h : env.voxel_result = .notFound) :
    (p.generate_cache_data = false → (runTask p env).1.voxels = none) ∧
    (p.generate_cache_data = true → env.generator_present = false →
      ((runTask p env).1.voxels).isSome = true) := by
  constructor
  · intro hgc
    simp [runTask, runVoxelsDispatch, h, hgc]
  · intro hgc hgp
    simp [runTask, runVoxelsDispatch, h, hgc, hgp]

/-- Witness for the amended C6 at a concrete input. -/
theorem c6_drop_on_miss_amended_witness :
    c6_env.voxel_result = .notFound ∧ (runTask c6w_params c6_env).1.voxels = none :=
  ⟨rfl, (c6_drop_on_miss_amended c6w_params c6_env rfl).1 rfl⟩

/-- Claim C7: the instance query is issued, but its successful payload should
then be moved into instances; the code instead tests voxel_query_data.result
(the voxel query) rather than instances_query.result, so on a voxel miss
with a successful instance query the payload (42 here) is dropped. -/
theorem c7_instances_moved_on_wrong_result_eval :
    (runTask c7_params c7_env).2.instance_query_issued = true ∧
    c7_env.instances_result = .found ∧
    c7_env.instances_data = some 42 ∧
    (runTask c7_params c7_env).1.instances = none :=
  ⟨rfl, rfl, rfl, rfl⟩

/-- Claim C8: try_set_voxel(x, y, z, value, ch) should act like
set_voxel(value, x, y, z, ch). The code passes the arguments through in the
wrong order, calling set_voxel(x, y, z, value, ch): on the 4x4x4 block,
try_set_voxel(1, 2, 3, 9, 0) targets position (2,3,9), which is out of
range, so the block is unchanged, while set_voxel(9, 1, 2, 3, 0) writes 9
at (1,2,3). -/
theorem c8_try_set_voxel_swapped_args_eval :
    c8_block.try_set_voxel 1 2 3 9 0 = c8_block ∧
    c8_block.get_voxel 1 2 3 0 = 0 ∧
    (c8_block.set_voxel 9 1 2 3 0).get_voxel 1 2 3 0 = 9 := by decide

/-- Claim C9: get_voxel_f on a D8 channel should return (raw - 127)/127.
Because raw_voxel_to_real is declared returning uint64_t, the real value is
truncated to an integer: for raw 200 the claimed value 73/127 becomes 0.
The 16^3 SDF scenario with defval 255 returns exactly 1 only because
trunc(128/127) = 1. -/
theorem c9_get_voxel_f_truncated_eval :
    c9_block.get_voxel 0 0 0 0 = 200 ∧
    c9_block.get_voxel_f 0 0 0 0 = some 0 ∧
    (((200 : ℚ) - 127) / 127 : ℚ) ≠ 0 ∧
    c9_sdf_block.get_voxel_f 0 0 0 1 = some 1 := by
  have e0 : raw_voxel_to_real (c9_block.get_voxel 0 0 0 0) (c9_block.channel 0).depth
      = some 0 := by decide
  have e1 : raw_voxel_to_real (c9_sdf_block.get_voxel 0 0 0 1) (c9_sdf_block.channel 1).depth
      = some 1 := by decide
  refine ⟨by decide, ?_, by norm_num, ?_⟩
  · show (raw_voxel_to_real (c9_block.get_voxel 0 0 0 0) (c9_block.channel 0).depth).map
      (fun n : Nat => (n : ℚ)) = some 0
    rw [e0]
    norm_num
  · show (raw_voxel_to_real (c9_sdf_block.get_voxel 0 0 0 1) (c9_sdf_block.channel 1).depth).map
      (fun n : Nat => (n : ℚ)) = some 1
    rw [e1]
    norm_num

/-- Claim C10: the 16x1x1 block whose D1 channel 2 holds the alternating bit
pattern 01 (both buffer bytes 0x55) is materialised, its in-range voxels are
not all equal (positions (0,0,0) and (7,0,0) read different values), yet
is_uniform returns true because the D1 check compares volume >> 3 whole
bytes; compress_uniform_channels then folds the channel to uniform, changing
the value read at (1,0,0). -/
theorem c10_d1_false_uniform_confirmed :
    (c10_block.channel 2).data.isSome = true ∧
    c10_block.get_voxel 0 0 0 2 ≠ c10_block.get_voxel 7 0 0 2 ∧
    c10_block.is_uniform 2 = true ∧
    c10_block.compress_uniform_channels.get_voxel 1 0 0 2 ≠ c10_block.get_voxel 1 0 0 2 := by
  decide
